import Mathlib

/-!
Verification of the music-assistant core against its specification.

This file gives a shallow embedding, in Lean 4, of the parts of the
music-assistant code base that the checked properties talk about:

* the `sync_task` decorator of `music_assistant/music_manager.py`
  (at-most-one running sync job per `(provider_id, job_name)` tag);
* the media-item data model of
  `music_assistant/common/models/media_items.py`
  (`ProviderMapping.quality`, `ProviderMapping.__hash__`,
  `MediaItem.add_provider_mapping`, `MediaItemMetadata.update`);
* the generic media controller of
  `music_assistant/server/controllers/media/base.py`
  (`remove_prov_mapping`, `delete`, `get`);
* the player manager of `music_assistant/player_manager.py`
  (`async_cmd_volume_set`, `async_play_media`);
* the playlist-edit operations of `music_assistant/music_manager.py`
  (`async_add_playlist_tracks`, `async_remove_playlist_tracks`).

Python `await` points are flattened: each embedded operation is a pure
function from its inputs (an explicit environment standing for the
database, the cache, the provider registry and the clock) to its result
together with the sequence of observable effects (emitted events,
dispatched player commands, scheduled tasks).  Machine integers are
modelled as `Nat`/`Int`/`ℚ`; Python `int(x)` on a float is modelled as
truncation toward zero on `ℚ`.
-/

namespace MA

/-! ## Sync engine: the `sync_task` decorator (music_manager.py, lines 30-59)

`sync_task(desc)` wraps a coroutine method.  The wrapper receives
`(self, prov_id)`; it checks `self.running_sync_jobs` for an entry equal
to `(prov_id, desc)` and returns immediately when one is present.
Otherwise it appends the tag, emits a `MUSIC_SYNC_STATUS` event carrying
the running-jobs list, runs the wrapped coroutine, removes the tag
(Python `list.remove`, first occurrence) and emits the event again.

The wrapped body only touches the rest of the system (database,
providers); it is modelled as an arbitrary function `body` acting on an
abstract `world` component of the state. -/

/-- State of the `MusicManager` as seen by the `sync_task` wrapper:
the `running_sync_jobs` list of `(prov_id, desc)` tags, the list of
`MUSIC_SYNC_STATUS` event payloads signalled so far (each payload is the
value of `running_sync_jobs` at signal time), and an abstract `world`
component for everything the wrapped job itself reads and writes. -/
structure SyncState (W : Type) where
  running_sync_jobs : List (String × String)
  events : List (List (String × String))
  world : W
  deriving Repr

/-- True when `running_sync_jobs` already holds a job with the given
provider id and description — the duplicate test of the wrapper
(`if sync_prov_id == prov_id and sync_desc == desc`). -/
def syncJobRunning (jobs : List (String × String)) (prov_id desc : String) : Bool :=
  jobs.any fun job => job.1 = prov_id && job.2 = desc

/-- The coroutine produced by the `sync_task(desc)` decorator applied to a
body, invoked as `wrapped(self, prov_id)` on state `s`. -/
def sync_task_wrapped {W : Type} (desc : String) (body : String → W → W)
    (prov_id : String) (s : SyncState W) : SyncState W :=
  if syncJobRunning s.running_sync_jobs prov_id desc then
    -- duplicate: log a warning and return without any state change
    s
  else
    let jobsStarted := s.running_sync_jobs ++ [(prov_id, desc)]
    let afterStart : SyncState W :=
      { s with
        running_sync_jobs := jobsStarted
        events := s.events ++ [jobsStarted] }
    let afterBody : SyncState W :=
      { afterStart with world := body prov_id afterStart.world }
    let jobsFinished := afterBody.running_sync_jobs.erase (prov_id, desc)
    { afterBody with
      running_sync_jobs := jobsFinished
      events := afterBody.events ++ [jobsFinished] }

/-! ## Media item model (common/models/media_items.py) -/

/-- Modelled from the spec: the provider-family identifier
(`ProviderType` of `common/models/enums.py`, a module not shipped in
`src/`); the spec calls it the provider "domain".  Only distinctness of
values matters here. -/
inductive ProviderType where
  | spotify
  | qobuz
  | tunein
  | filesystem_local
  | url_provider
  | database
  deriving DecidableEq, Repr

/-- Modelled from the spec: the audio content-type enum
(`ContentType` of `common/models/enums.py`, not shipped in `src/`),
split into lossless codecs (FLAC family, uncompressed PCM containers)
and lossy codecs, as §3 of the spec describes. -/
inductive ContentType where
  | flac
  | alac
  | wav
  | aiff
  | dsf
  | mp3
  | aac
  | ogg
  | wma
  | m4a
  | unknown
  deriving DecidableEq, Repr

/-- Modelled from the spec: `ContentType.is_lossless()` — true exactly
for the lossless codecs. -/
def ContentType.is_lossless : ContentType → Bool
  | .flac => true
  | .alac => true
  | .wav => true
  | .aiff => true
  | .dsf => true
  | _ => false

/-- `ProviderMapping` (media_items.py lines 27-59): a frozen dataclass.
Python's generated `__eq__` compares all fields, which the derived
`DecidableEq` mirrors. -/
structure ProviderMapping where
  item_id : String
  provider_type : ProviderType
  provider_id : String
  available : Bool := true
  content_type : ContentType := .unknown
  sample_rate : Nat := 44100
  bit_depth : Nat := 16
  bit_rate : Nat := 320
  details : Option String := none
  url : Option String := none
  deriving DecidableEq, Repr

/-- `ProviderMapping.quality` (lines 45-55).  Python computes
`int(self.sample_rate / 1000) + self.bit_depth` for lossless content and
`int(self.bit_rate / 100 + pref)` for lossy content with `pref = 1` for
AAC and OGG; for the non-negative integer fields involved, float
division followed by `int(...)` truncation coincides with `Nat` floor
division (and `int(x + 1) = int(x) + 1`). -/
def ProviderMapping.quality (m : ProviderMapping) : Nat :=
  if m.content_type.is_lossless then
    m.sample_rate / 1000 + m.bit_depth
  else
    m.bit_rate / 100 + (if m.content_type = .aac || m.content_type = .ogg then 1 else 0)

/-- `ProviderMapping.__hash__` (lines 57-59) returns
`hash((self.provider_type, self.item_id))`; the tuple fed to `hash` is
modelled as the hash key. -/
def ProviderMapping.hashKey (m : ProviderMapping) : ProviderType × String :=
  (m.provider_type, m.item_id)

/-- `MediaItem.add_provider_mapping` (lines 212-222): drop every mapping
sharing `(item_id, provider_id)` with the new mapping, then add the new
mapping.  The Python `set` is modelled as a list. -/
def add_provider_mapping (mappings : List ProviderMapping) (m : ProviderMapping) :
    List ProviderMapping :=
  (mappings.filter fun x => !(x.item_id = m.item_id && x.provider_id = m.provider_id)) ++ [m]

/-- The key whose uniqueness claim C5 is about. -/
def mappingKey (m : ProviderMapping) : String × String :=
  (m.provider_id, m.item_id)

/-- At most one mapping per `(provider_id, item_id)` key. -/
def keyUnique (mappings : List ProviderMapping) : Prop :=
  ∀ k : String × String, mappings.countP (fun x => mappingKey x = k) ≤ 1

/-- Modelled from the spec: image type enum (`ImageType` of
`common/models/enums.py`, not shipped in `src/`). -/
inductive ImageType where
  | thumb
  | fanart
  | other
  deriving DecidableEq, Repr

/-- Modelled from the spec: link type enum (`LinkType` of
`common/models/enums.py`, not shipped in `src/`). -/
inductive LinkType where
  | website
  | other
  deriving DecidableEq, Repr

/-- `MediaItemImage` (media_items.py lines 74-84). -/
structure MediaItemImage where
  type : ImageType
  url : String
  is_file : Bool := false
  deriving DecidableEq, Repr

/-- `MediaItemLink` (media_items.py lines 62-71). -/
structure MediaItemLink where
  type : LinkType
  url : String
  deriving DecidableEq, Repr

/-- `MediaItemMetadata` (media_items.py lines 87-110).  Python `Set`
fields are carried as lists with set semantics; only their None-ness and
container kind matter to `update`. -/
structure MediaItemMetadata where
  description : Option String := none
  review : Option String := none
  explicit : Option Bool := none
  images : Option (List MediaItemImage) := none
  genres : Option (List String) := none
  mood : Option String := none
  style : Option String := none
  copyright : Option String := none
  lyrics : Option String := none
  ean : Option String := none
  label : Option String := none
  links : Option (List MediaItemLink) := none
  performers : Option (List String) := none
  preview : Option String := none
  replaygain : Option ℚ := none
  popularity : Option Int := none
  last_refresh : Option Int := none
  checksum : Option String := none
  deriving DecidableEq, Repr

/-- Modelled from the spec: `merge_lists` of `common/helpers/util.py`
(not shipped in `src/`); the spec says list fields merge by union, so
the current list is kept and new elements not already present are
appended. -/
def mergeLists {α : Type} [DecidableEq α] (cur new : List α) : List α :=
  cur ++ new.filter (fun x => ¬ x ∈ cur)

/-- One field of `MediaItemMetadata.update` whose current value is
list-typed (`isinstance(cur_val, list)` branch): a non-None new value is
merged with `merge_lists` when the current value is a list, and stored
as-is when the current value is None. -/
def updListField {α : Type} [DecidableEq α] (cur new : Option (List α)) : Option (List α) :=
  match new with
  | none => cur
  | some n =>
    match cur with
    | some c => some (mergeLists c n)
    | none => some n

/-- One field of `MediaItemMetadata.update` whose current value is
set-typed (`isinstance(cur_val, set)` branch).  Python runs
`new_val = cur_val.update(new_val)` — `set.update` mutates in place and
returns `None` — and then `setattr(self, fld.name, new_val)`, so a
non-None new value with a non-None current value leaves the field set to
`None`. -/
def updSetField {α : Type} (cur new : Option (List α)) : Option (List α) :=
  match new with
  | none => cur
  | some n =>
    match cur with
    | some _ => none
    | none => some n

/-- One plain scalar field of `MediaItemMetadata.update`: a non-None new
value is stored when the current value is None or `allow_overwrite`,
otherwise the current value is kept. -/
def updScalarField {α : Type} (allow_overwrite : Bool) (cur new : Option α) : Option α :=
  match new with
  | none => cur
  | some n =>
    match cur with
    | none => some n
    | some _ => if allow_overwrite then some n else cur

/-- One of the always-overwritable fields (`checksum`, `popularity`,
`last_refresh`) of `MediaItemMetadata.update`: as `updScalarField`, but
additionally a truthy (`elif new_val and ...`) new value overwrites a
non-None current value. -/
def updSpecialField {α : Type} (truthy : α → Bool) (allow_overwrite : Bool)
    (cur new : Option α) : Option α :=
  match new with
  | none => cur
  | some n =>
    match cur with
    | none => some n
    | some _ => if allow_overwrite || truthy n then some n else cur

/-- `MediaItemMetadata.update` (media_items.py lines 112-134), unrolled
over the dataclass fields in declaration order (the fields are
independent, so the order does not matter).  `images` is the only
list-typed field; `genres`, `links` and `performers` are the set-typed
fields; `checksum`, `popularity` and `last_refresh` take the
always-overwritable branch guarded by Python truthiness. -/
def MediaItemMetadata.update (self new_values : MediaItemMetadata)
    (allow_overwrite : Bool := false) : MediaItemMetadata where
  description := updScalarField allow_overwrite self.description new_values.description
  review := updScalarField allow_overwrite self.review new_values.review
  explicit := updScalarField allow_overwrite self.explicit new_values.explicit
  images := updListField self.images new_values.images
  genres := updSetField self.genres new_values.genres
  mood := updScalarField allow_overwrite self.mood new_values.mood
  style := updScalarField allow_overwrite self.style new_values.style
  copyright := updScalarField allow_overwrite self.copyright new_values.copyright
  lyrics := updScalarField allow_overwrite self.lyrics new_values.lyrics
  ean := updScalarField allow_overwrite self.ean new_values.ean
  label := updScalarField allow_overwrite self.label new_values.label
  links := updSetField self.links new_values.links
  performers := updSetField self.performers new_values.performers
  preview := updScalarField allow_overwrite self.preview new_values.preview
  replaygain := updScalarField allow_overwrite self.replaygain new_values.replaygain
  popularity := updSpecialField (fun n => n ≠ 0) allow_overwrite
    self.popularity new_values.popularity
  last_refresh := updSpecialField (fun n => n ≠ 0) allow_overwrite
    self.last_refresh new_values.last_refresh
  checksum := updSpecialField (fun s => s ≠ "") allow_overwrite
    self.checksum new_values.checksum

/-! ## Generic media controller (server/controllers/media/base.py)

The controller in this file works on the newer data model in which a
provider mapping carries `provider_instance` and `provider_domain`
string fields. -/

namespace Ctrl

/-- A provider mapping as used by the controller
(`provider_instance` is the configured instance id, `provider_domain`
the provider family, `item_id` the provider-side id). -/
structure PMap where
  provider_instance : String
  provider_domain : String
  item_id : String
  available : Bool := true
  deriving DecidableEq, Repr

/-- One canonical database row of the controller's table: the integer
database id, the derived `uri`, and the JSON `provider_mappings`
column (a set, modelled as a list). -/
structure DbRow where
  item_id : Nat
  uri : String
  provider_mappings : List PMap
  deriving DecidableEq, Repr

/-- One row of the `provider_mappings` index table
(`DB_TABLE_PROVIDER_MAPPINGS`). -/
structure MappingRow where
  media_type : String
  item_id : Nat
  provider_instance : String
  provider_domain : String
  provider_item_id : String
  deriving DecidableEq, Repr

/-- Events the controller signals on the event bus. -/
inductive Ev where
  | media_item_updated (uri : String)
  | media_item_deleted (uri : String)
  deriving DecidableEq, Repr

/-- The persistent state the controller operations touch: the entity
table, the provider-mappings index table, and the emitted events. -/
structure CtrlState where
  rows : List DbRow
  mappingTable : List MappingRow
  events : List Ev
  deriving DecidableEq, Repr

/-- `get_db_item` on the row store: first row with the given database
id (db ids are a primary key, so at most one row matches). -/
def findRow (rows : List DbRow) (item_id : Nat) : Option DbRow :=
  rows.find? fun r => r.item_id = item_id

/-- `MediaControllerBase.delete` (base.py lines 51-68): assert the row
exists, delete it, delete all its rows from the provider-mappings index
table, and emit `MEDIA_ITEM_DELETED`.  When the row does not exist the
assertion fires before any mutation, so the state is unchanged. -/
def delete (media_type : String) (st : CtrlState) (item_id : Nat) : CtrlState :=
  match findRow st.rows item_id with
  | none => st
  | some db_item =>
    { rows := st.rows.filter fun r => !(r.item_id = item_id)
      mappingTable := st.mappingTable.filter fun r =>
        !(r.media_type = media_type && r.item_id = item_id)
      events := st.events ++ [.media_item_deleted db_item.uri] }

/-- `MediaControllerBase.remove_prov_mapping` (base.py lines 400-434):
look up the row (returning unchanged on `MediaNotFoundError`), delete
the `(media_type, item_id, provider_instance)` rows from the index
table, drop the instance's mappings from the row's mapping set, then
either update the row and emit `MEDIA_ITEM_UPDATED` (mappings left) or
fall through to `delete` (no mappings left). -/
def remove_prov_mapping (media_type : String) (st : CtrlState)
    (item_id : Nat) (provider_instance_id : String) : CtrlState :=
  match findRow st.rows item_id with
  | none => st
  | some db_item =>
    let st1 : CtrlState :=
      { st with
        mappingTable := st.mappingTable.filter fun r =>
          !(r.media_type = media_type && r.item_id = item_id &&
            r.provider_instance = provider_instance_id) }
    let newMappings := db_item.provider_mappings.filter fun x =>
      !(x.provider_instance = provider_instance_id)
    if newMappings.isEmpty then
      delete media_type st1 item_id
    else
      { st1 with
        rows := st1.rows.map fun r =>
          if r.item_id = item_id then { r with provider_mappings := newMappings } else r
        events := st1.events ++ [.media_item_updated db_item.uri] }

/-- `REFRESH_INTERVAL` (base.py line 30): thirty days in seconds. -/
def REFRESH_INTERVAL : Int := 60 * 60 * 24 * 30

/-- The view of a media item that `MediaControllerBase.get` inspects:
its `provider` attribute, `metadata.last_refresh`, whether the object is
an `ItemMapping` projection, and an opaque payload distinguishing
items. -/
structure CItem where
  provider : String
  item_id : String
  metadata_last_refresh : Option Int := none
  isItemMapping : Bool := false
  payload : Nat := 0
  deriving DecidableEq, Repr

/-- Environment for `MediaControllerBase.get`: the database, cache and
provider calls it awaits, flattened to functions.
`dbItem` is `get_db_item` (None = `MediaNotFoundError`);
`dbItemByProv` is the mapping-index lookup of `get_db_item_by_prov_id`
for a non-`"database"` provider; `providerItem` is `get_provider_item`
(None = `MediaNotFoundError`); `providerMapping` is
`get_provider_mapping` (first available mapping, None when there is
none); `addResult` is the value of the awaited `add` task; `now` is
`time()`. -/
structure GetEnv where
  dbItem : String → Option CItem
  dbItemByProv : String → String → Option CItem
  providerItem : String → String → Option CItem
  providerMapping : CItem → Option (String × String)
  addResult : CItem → CItem
  now : Int

/-- Errors surfaced by `get`. -/
inductive GetErr where
  | mediaNotFound
  deriving DecidableEq, Repr

/-- Result of `get` together with its observable effects: whether a
provider was contacted (`get_provider_item` ran), whether an `add` task
was created, and whether that task was awaited. -/
structure GetOut where
  item : CItem
  providerContacted : Bool
  addScheduled : Bool
  addAwaited : Bool
  deriving DecidableEq, Repr

/-- Tail of `MediaControllerBase.get` from line 154 on: resolve
`details` (fetching from the provider when absent), then return the
details directly (`add_to_db` false), schedule `add` and return the
provider entity (`lazy`), or await `add` and return the database
entity.  `provPair` is the `(provider, item_id)` pair in scope at that
point; it is `none` when `get_provider_mapping` found no mapping, in
which case the provider lookup fails with `MediaNotFoundError`. -/
def getFetchTail (env : GetEnv) (provPair : Option (String × String))
    (details : Option CItem) (lazy add_to_db : Bool) : Except GetErr GetOut :=
  match details with
  | some d =>
    if !add_to_db then .ok ⟨d, false, false, false⟩
    else if lazy then .ok ⟨d, false, true, false⟩
    else .ok ⟨env.addResult d, false, true, true⟩
  | none =>
    match provPair with
    | none => .error .mediaNotFound
    | some (prov, item_id) =>
      match env.providerItem prov item_id with
      | none => .error .mediaNotFound
      | some d =>
        if !add_to_db then .ok ⟨d, true, false, false⟩
        else if lazy then .ok ⟨d, true, true, false⟩
        else .ok ⟨env.addResult d, true, true, true⟩

/-- The details-invalidation step of `get` (base.py lines 138-140):
details that are not full provider details for this item — a
`"database"` item or an `ItemMapping` — are dropped. -/
def validateDetails (details0 : Option CItem) : Option CItem :=
  match details0 with
  | some d => if d.provider = "database" || d.isItemMapping then none else some d
  | none => none

/-- `MediaControllerBase.get` (base.py lines 126-174). -/
def get (env : GetEnv) (item_id : String) (provider_instance_id_or_domain : String)
    (force_refresh : Bool := false) (lazy : Bool := true)
    (details0 : Option CItem := none) (add_to_db : Bool := true) :
    Except GetErr GetOut :=
  if !add_to_db && provider_instance_id_or_domain = "database" then
    match env.dbItem item_id with
    | some it => .ok ⟨it, false, false, false⟩
    | none => .error .mediaNotFound
  else
    -- invalidate details that are not full provider details
    let details : Option CItem := validateDetails details0
    -- get_db_item_by_prov_id (raises for a missing "database" item)
    let dbLookup : Except GetErr (Option CItem) :=
      if provider_instance_id_or_domain = "database" then
        match env.dbItem item_id with
        | some it => .ok (some it)
        | none => .error .mediaNotFound
      else
        .ok (env.dbItemByProv provider_instance_id_or_domain item_id)
    match dbLookup with
    | .error e => .error e
    | .ok none =>
      getFetchTail env (some (provider_instance_id_or_domain, item_id)) details lazy add_to_db
    | .ok (some db_item) =>
      let force_refresh :=
        force_refresh || env.now - db_item.metadata_last_refresh.getD 0 > REFRESH_INTERVAL
      if force_refresh && add_to_db then
        -- refresh through the (first) provider mapping of the db item
        getFetchTail env (env.providerMapping db_item) details lazy add_to_db
      else
        .ok ⟨db_item, false, false, false⟩

end Ctrl

/-! ## Player manager (player_manager.py) -/

namespace PM

/-- Modelled from the spec: the `Player` model of `models/player.py`
(not shipped in `src/`), restricted to the fields `player_manager.py`
reads — spec §3 lists `{player_id, powered, volume_level (0..100),
available, is_group, group_childs[], ...}`.  `volume_level` is a
rational because group volume is an average and child volumes are
scaled by a float factor. -/
structure Player where
  player_id : String
  powered : Bool := false
  available : Bool := true
  volume_level : ℚ := 0
  is_group_player : Bool := false
  group_childs : List String := []
  deriving DecidableEq, Repr

/-- The slice of `PlayerManager`/configuration state that
`async_cmd_volume_set` reads: the `_players` registry, the per-player
`volume_control` config entry (`player_config.get(CONF_VOLUME_CONTROL)`)
and which controls are registered (`get_player_control` returns the
control or None). -/
structure PMState where
  players : String → Option Player
  volumeControlOf : String → Option String
  controlRegistered : String → Bool

/-- A command dispatched while handling `async_cmd_volume_set`: either a
`player_prov.async_cmd_volume_set(player_id, level)` call to the
player's provider, or a `control.set_state(level)` job on an attached
volume control. -/
inductive VolCmd where
  | provVolumeSet (player_id : String) (level : Int)
  | controlSetState (control_id : String) (level : Int)
  deriving DecidableEq, Repr

/-- Modelled from the spec: `try_parse_int` of `utils.py` (not shipped
in `src/`) applies Python `int(...)` to its argument; on a float that
truncates toward zero. -/
def pyTrunc (q : ℚ) : Int :=
  if q < 0 then ⌈q⌉ else ⌊q⌋

/-- The `if volume_level < 0 ... elif volume_level > 100` clamp of
`async_cmd_volume_set` (lines 376-379). -/
def clampVol (z : Int) : Int :=
  if z < 0 then 0 else if z > 100 then 100 else z

/-- `PlayerManager.async_cmd_volume_set` (player_manager.py lines
364-404): look up the player, return at once when it is not powered,
parse and clamp the requested level into `0..100`, then dispatch per the
volume-control / group / regular cases; for a group every available and
powered child gets a recursive `async_cmd_volume_set` with its rescaled
volume.  `fuel` bounds that recursion (in Python a cyclic group nests
forever; an acyclic group is handled in full once `fuel` exceeds the
nesting depth).  The function returns the dispatched commands in
dispatch order; it writes no player state itself. -/
def cmd_volume_set (st : PMState) : Nat → String → ℚ → List VolCmd
  | 0, _, _ => []
  | fuel + 1, player_id, volume_level =>
    match st.players player_id with
    | none => []
    | some player =>
      if !player.powered then []
      else
        let vl := clampVol (pyTrunc volume_level)
        match st.volumeControlOf player_id with
        | some control_id =>
          -- volume outsourced to a playercontrol; the actual player is
          -- forced to full volume.  A configured but unregistered
          -- control skips the whole elif-chain: nothing is dispatched.
          if st.controlRegistered control_id then
            [.controlSetState control_id vl, .provVolumeSet player_id 100]
          else []
        | none =>
          if player.is_group_player then
            let cur_volume := player.volume_level
            let new_volume : ℚ := (vl : ℚ)
            let volume_dif := new_volume - cur_volume
            let volume_dif_percent : ℚ :=
              if cur_volume = 0 then 1 + new_volume / 100 else volume_dif / cur_volume
            (player.group_childs.map fun child_id =>
              match st.players child_id with
              | some child =>
                if child.available && child.powered then
                  let cur_child_volume := child.volume_level
                  let new_child_volume :=
                    cur_child_volume + cur_child_volume * volume_dif_percent
                  cmd_volume_set st fuel child_id new_child_volume
                else []
              | none => []).flatten
          else
            [.provVolumeSet player_id vl]

/-! ### `async_play_media` (player_manager.py lines 171-230) -/

/-- `QueueOption` of `models/player_queue.py`. -/
inductive QueueOption where
  | play
  | replace
  | next
  | add
  deriving DecidableEq, Repr

/-- The old-model media item as `async_play_media` sees it (the
`models/media_types.py` dataclass, restricted to the discriminating
fields). -/
structure MItem where
  item_id : String
  provider : String
  media_type : String
  deriving DecidableEq, Repr

/-- One queue item built by `async_play_media`: the collected track and
the generated per-item stream URL. -/
structure QItem where
  track : MItem
  uri : String
  deriving DecidableEq, Repr

/-- Environment of `async_play_media`: the player registry, the
music-manager expansion generators (`async_get_artist_toptracks`,
`async_get_album_tracks`, `async_get_playlist_tracks`, keyed by the
item's id and provider), the web server address, and the stream of
fresh `queue_item_id` values (the n-th generated UUID). -/
structure PlayEnv where
  playerExists : String → Bool
  artistTopTracks : String → String → List MItem
  albumTracks : String → String → List MItem
  playlistTracks : String → String → List MItem
  local_ip : String
  http_port : String
  newId : Nat → String

/-- The queue operation `async_play_media` finally invokes on the
player's queue.  `err` stands for the `KeyError` escaping from
`self._players[player_id]` on an unknown player. -/
inductive QueueAction where
  | err
  | load (items : List QItem)
  | insert (items : List QItem) (offset : Nat)
  | append (items : List QItem)
  deriving DecidableEq, Repr

/-- Track collection per media item: artists expand to top tracks,
albums to album tracks, playlists to playlist tracks, anything else
passes through as a single item (`async_iter_items`). -/
def expandOne (env : PlayEnv) (m : MItem) : List MItem :=
  if m.media_type = "artist" then env.artistTopTracks m.item_id m.provider
  else if m.media_type = "album" then env.albumTracks m.item_id m.provider
  else if m.media_type = "playlist" then env.playlistTracks m.item_id m.provider
  else [m]

/-- The stream URL generated for the n-th collected track:
`http://{ip}:{port}/stream/{player_id}/{queue_item_id}`. -/
def streamUri (env : PlayEnv) (player_id : String) (n : Nat) : String :=
  "http://" ++ env.local_ip ++ ":" ++ env.http_port ++ "/stream/" ++
    player_id ++ "/" ++ env.newId n

/-- The `queue_items` list built by the expansion loop, in collection
order. -/
def buildQueueItems (env : PlayEnv) (player_id : String)
    (media_items : List MItem) : List QItem :=
  let tracks := media_items.flatMap (expandOne env)
  (List.range tracks.length).zip tracks |>.map fun p =>
    { track := p.2, uri := streamUri env player_id p.1 }

/-- `PlayerManager.async_play_media` (lines 171-230), returning the
queue operation it dispatches. -/
def play_media (env : PlayEnv) (player_id : String)
    (media_items : List MItem) (queue_opt : QueueOption) : QueueAction :=
  if !env.playerExists player_id then .err
  else
    let queue_items := buildQueueItems env player_id media_items
    if queue_opt = .replace ||
        (queue_items.length > 10 && (queue_opt = .play || queue_opt = .next)) then
      .load queue_items
    else if queue_opt = .next then .insert queue_items 1
    else if queue_opt = .play then .insert queue_items 0
    else .append queue_items

end PM

/-! ## Playlist edits (music_manager.py lines 675-750)

These functions work on the old data model of `models/media_types.py`,
where `provider_ids` entries carry `{provider, item_id, quality}`. -/

namespace ML

/-- A `provider_ids` entry (`MediaItemProviderId` /
the equivalent db dictionary rows indexed by `"provider"`, `"item_id"`
and `"quality"`). -/
structure ProvId where
  provider : String
  item_id : String
  quality : Nat := 99
  deriving DecidableEq, Repr

/-- The playlist fields the edit functions read. -/
structure MPlaylist where
  item_id : String
  is_editable : Bool
  provider_ids : List ProvId
  checksum : Option String := none
  deriving DecidableEq, Repr

/-- A track argument (or a current playlist track): its database/item id
and its provider entries. -/
structure MTrack where
  item_id : String
  provider_ids : List ProvId
  deriving DecidableEq, Repr

/-- Environment of the playlist-edit functions: the database playlist
lookup (`self.playlist(db_playlist_id, "database")`), the provider's
current playlist listing, the wall clock (`time.time()`), and the
results of the provider edit calls. -/
structure EditEnv where
  playlist : Option MPlaylist
  providerPlaylistTracks : String → String → List MTrack
  now : Nat
  addOnProvider : String → String → List String → Bool
  removeOnProvider : String → String → List String → Bool

/-- Outcome of a playlist edit: the Python return value (`none` models
Python `None`), the checksum written to the playlist row (if any), and
the edit forwarded to a provider (provider, provider playlist id,
track ids), if any. -/
structure EditOutcome where
  result : Option Bool
  checksumSet : Option String
  providerCall : Option (String × String × List String)
  deriving DecidableEq, Repr

/-- Python `sorted(track.provider_ids, key=itemgetter("quality"),
reverse=True)`: a stable sort by descending quality. -/
def sortByQualityDesc (l : List ProvId) : List ProvId :=
  l.mergeSort fun a b => decide (b.quality ≤ a.quality)

/-- The inner `for track_version in sorted(...)` loop of
`async_add_playlist_tracks`: take the first version on the playlist's
provider; a `"file"`-provider playlist instead takes the very first
version, as a verbatim `{provider}://{item_id}` uri when the providers
differ. -/
def pickTrackId (playlist_provider : String) : List ProvId → Option String
  | [] => none
  | tv :: rest =>
    if tv.provider = playlist_provider then some tv.item_id
    else if playlist_provider = "file" then some (tv.provider ++ "://" ++ tv.item_id)
    else pickTrackId playlist_provider rest

/-- All item ids present in the provider playlist: for each current
track, its own `item_id` and every `provider_ids` entry's `item_id`. -/
def currentPlaylistTrackIds (cur : List MTrack) : List String :=
  cur.flatMap fun it => it.item_id :: it.provider_ids.map (·.item_id)

/-- The `track_ids_to_add` list of `async_add_playlist_tracks`:
duplicates (by own id or any provider id) are skipped, the rest pick a
version via `pickTrackId`. -/
def trackIdsToAdd (playlist_provider : String) (cur_ids : List String)
    (tracks : List MTrack) : List String :=
  tracks.filterMap fun track =>
    let already_exists :=
      cur_ids.contains track.item_id ||
        track.provider_ids.any fun tp => cur_ids.contains tp.item_id
    if already_exists then none
    else pickTrackId playlist_provider (sortByQualityDesc track.provider_ids)

/-- `MusicManager.async_add_playlist_tracks` (lines 675-724).  A missing
or non-editable playlist returns `False` with no effects; a playlist
with an empty `provider_ids` raises `IndexError` before any effect
(modelled as result `none` with no effects); otherwise, when there is
anything to add, the checksum is set to the current wall clock and the
add is forwarded to the playlist's first (single) provider mapping. -/
def add_playlist_tracks (env : EditEnv) (tracks : List MTrack) : EditOutcome :=
  match env.playlist with
  | none => ⟨some false, none, none⟩
  | some playlist =>
    if !playlist.is_editable then ⟨some false, none, none⟩
    else
      match playlist.provider_ids with
      | [] => ⟨none, none, none⟩
      | playlist_prov :: _ =>
        let cur_ids := currentPlaylistTrackIds
          (env.providerPlaylistTracks playlist_prov.provider playlist_prov.item_id)
        let track_ids_to_add := trackIdsToAdd playlist_prov.provider cur_ids tracks
        if track_ids_to_add.isEmpty then ⟨some false, none, none⟩
        else
          ⟨some (env.addOnProvider playlist_prov.provider playlist_prov.item_id
              track_ids_to_add),
            some (toString env.now),
            some (playlist_prov.provider, playlist_prov.item_id, track_ids_to_add)⟩

/-- The `track_ids_to_remove` list of `async_remove_playlist_tracks`:
every provider entry of every given track that lives on the playlist's
provider. -/
def trackIdsToRemove (playlist_provider : String) (tracks : List MTrack) : List String :=
  tracks.flatMap fun track =>
    (track.provider_ids.filter fun tp => tp.provider = playlist_provider).map (·.item_id)

/-- `MusicManager.async_remove_playlist_tracks` (lines 726-750).  As for
adding, except that with nothing to remove the function falls through
returning Python `None`. -/
def remove_playlist_tracks (env : EditEnv) (tracks : List MTrack) : EditOutcome :=
  match env.playlist with
  | none => ⟨some false, none, none⟩
  | some playlist =>
    if !playlist.is_editable then ⟨some false, none, none⟩
    else
      match playlist.provider_ids with
      | [] => ⟨none, none, none⟩
      | playlist_prov :: _ =>
        let track_ids_to_remove := trackIdsToRemove playlist_prov.provider tracks
        if track_ids_to_remove.isEmpty then ⟨none, none, none⟩
        else
          ⟨some (env.removeOnProvider playlist_prov.provider playlist_prov.item_id
              track_ids_to_remove),
            some (toString env.now),
            some (playlist_prov.provider, playlist_prov.item_id, track_ids_to_remove)⟩

end ML

/-! ## Concrete instances used by witnesses and counterexamples -/

/-- A lossless FLAC mapping, 96 kHz / 24 bit. -/
def flacMapping : ProviderMapping :=
  { item_id := "t1", provider_type := .qobuz, provider_id := "qobuz",
    content_type := .flac, sample_rate := 96000, bit_depth := 24 }

/-- A lossy OGG mapping at 320 kbit/s. -/
def oggMapping : ProviderMapping :=
  { item_id := "t1", provider_type := .spotify, provider_id := "spotify",
    content_type := .ogg, bit_rate := 320 }

/-- A mapping for the C5 counterexample. -/
def c5m1 : ProviderMapping :=
  { item_id := "x", provider_type := .spotify, provider_id := "sp" }

/-- Same `(provider_id, item_id)` key as `c5m1` but a different
`available` flag. -/
def c5m2 : ProviderMapping :=
  { item_id := "x", provider_type := .spotify, provider_id := "sp", available := false }

/-- Same `(provider_id, item_id)` key as `c5m1` but a different
provider type. -/
def c5m3 : ProviderMapping :=
  { item_id := "x", provider_type := .qobuz, provider_id := "sp" }

namespace Ctrl

/-- The stale database row of the C6 counterexample: a `"database"` item
whose metadata was last refreshed at time 0. -/
def c6DbRow : CItem :=
  { provider := "database", item_id := "1", metadata_last_refresh := some 0, payload := 1 }

/-- The provider item the C6 counterexample environment serves. -/
def c6ProvItem : CItem :=
  { provider := "spotify", item_id := "abc", payload := 2 }

/-- Environment of the C6 counterexample: database row `1` exists but is
older than `REFRESH_INTERVAL`; its first available provider mapping is
`("spotify", "abc")`, which the provider resolves to `c6ProvItem`. -/
def c6Env : GetEnv :=
  { dbItem := fun id => if id = "1" then some c6DbRow else none
    dbItemByProv := fun _ _ => none
    providerItem := fun prov id =>
      if prov = "spotify" && id = "abc" then some c6ProvItem else none
    providerMapping := fun _ => some ("spotify", "abc")
    addResult := fun it => { it with provider := "database", payload := it.payload + 10 }
    now := REFRESH_INTERVAL + 1 }

/-- A fresh database row served by the C6 witness environment. -/
def c6FreshRow : CItem :=
  { provider := "database", item_id := "2", metadata_last_refresh := some 90, payload := 3 }

/-- Environment of the C6 witness: row `2` is fresh at `now = 100`,
nothing else is in the database, and provider `"deezer"` serves item
`"z"`. -/
def c6WitnessEnv : GetEnv :=
  { dbItem := fun id => if id = "2" then some c6FreshRow else none
    dbItemByProv := fun prov id =>
      if prov = "deezer" && id = "2z" then some c6FreshRow else none
    providerItem := fun prov id =>
      if prov = "deezer" && id = "z" then some c6ProvItem else none
    providerMapping := fun _ => none
    addResult := fun it => { it with provider := "database", payload := it.payload + 10 }
    now := 100 }

/-- A two-row controller state for the C2 witness: row 1 is mapped on
provider instances `"spotify"` and `"qobuz"`, row 2 only on
`"spotify"`. -/
def c2State : CtrlState :=
  { rows :=
      [ { item_id := 1, uri := "track://database/1",
          provider_mappings :=
            [ { provider_instance := "spotify", provider_domain := "spotify", item_id := "s1" },
              { provider_instance := "qobuz", provider_domain := "qobuz", item_id := "q1" } ] },
        { item_id := 2, uri := "track://database/2",
          provider_mappings :=
            [ { provider_instance := "spotify", provider_domain := "spotify", item_id := "s2" } ] } ]
    mappingTable :=
      [ { media_type := "track", item_id := 1, provider_instance := "spotify",
          provider_domain := "spotify", provider_item_id := "s1" },
        { media_type := "track", item_id := 1, provider_instance := "qobuz",
          provider_domain := "qobuz", provider_item_id := "q1" },
        { media_type := "track", item_id := 2, provider_instance := "spotify",
          provider_domain := "spotify", provider_item_id := "s2" } ]
    events := [] }

end Ctrl

namespace PM

/-- A group player `"g"` whose only child `"c1"` is available, powered
and at volume 0 (so the group volume, the average over active children,
is 0 as well). -/
def c3AllZeroState : PMState :=
  { players := fun pid =>
      if pid = "g" then
        some { player_id := "g", powered := true, volume_level := 0,
               is_group_player := true, group_childs := ["c1"] }
      else if pid = "c1" then
        some { player_id := "c1", powered := true, volume_level := 0 }
      else none
    volumeControlOf := fun _ => none
    controlRegistered := fun _ => false }

/-- A group player `"g"` at group volume 50 whose only child `"c1"` is
available, powered and at volume 50. -/
def c3EqualState : PMState :=
  { players := fun pid =>
      if pid = "g" then
        some { player_id := "g", powered := true, volume_level := 50,
               is_group_player := true, group_childs := ["c1"] }
      else if pid = "c1" then
        some { player_id := "c1", powered := true, volume_level := 50 }
      else none
    volumeControlOf := fun _ => none
    controlRegistered := fun _ => false }

/-- Two plain players: `"off1"` is not powered, `"on1"` is powered. -/
def c10State : PMState :=
  { players := fun pid =>
      if pid = "off1" then
        some { player_id := "off1", powered := false, volume_level := 20 }
      else if pid = "on1" then
        some { player_id := "on1", powered := true, volume_level := 20 }
      else none
    volumeControlOf := fun _ => none
    controlRegistered := fun _ => false }

/-- Environment for the C7 witness: one registered player, an album
`"a1"` that expands to two tracks and an artist `"ar1"` that expands to
one top track. -/
def c7Env : PlayEnv :=
  { playerExists := fun pid => pid = "p1"
    artistTopTracks := fun id _ =>
      if id = "ar1" then [{ item_id := "t3", provider := "spotify", media_type := "track" }]
      else []
    albumTracks := fun id _ =>
      if id = "a1" then
        [ { item_id := "t1", provider := "spotify", media_type := "track" },
          { item_id := "t2", provider := "spotify", media_type := "track" } ]
      else []
    playlistTracks := fun _ _ => []
    local_ip := "192.168.1.2"
    http_port := "8095"
    newId := fun n => "uuid" ++ toString n }

/-- The media items played in the C7 witness: the album `"a1"` followed
by the artist `"ar1"` (three tracks after expansion). -/
def c7Items : List MItem :=
  [ { item_id := "a1", provider := "spotify", media_type := "album" },
    { item_id := "ar1", provider := "spotify", media_type := "artist" } ]

end PM

namespace ML

/-- Environment for the C8 witness: an editable database playlist on
provider `"spotify"`, currently holding one track, with the clock at
1000. -/
def c8Env : EditEnv :=
  { playlist := some
      { item_id := "7", is_editable := true, checksum := some "c0",
        provider_ids := [{ provider := "spotify", item_id := "pl7", quality := 99 }] }
    providerPlaylistTracks := fun prov id =>
      if prov = "spotify" && id = "pl7" then
        [{ item_id := "old1", provider_ids := [{ provider := "spotify", item_id := "old1" }] }]
      else []
    now := 1000
    addOnProvider := fun _ _ _ => true
    removeOnProvider := fun _ _ _ => true }

/-- The read-only playlist used by the C8 witness. -/
def c8ReadOnlyPlaylist : MPlaylist :=
  { item_id := "7", is_editable := false, checksum := some "c0",
    provider_ids := [{ provider := "spotify", item_id := "pl7", quality := 99 }] }

/-- The same environment as `c8Env` with the playlist marked
read-only. -/
def c8ReadOnlyEnv : EditEnv :=
  { c8Env with playlist := some c8ReadOnlyPlaylist }

/-- A new track, available on `"spotify"` and `"qobuz"`, not yet in the
playlist. -/
def c8NewTrack : MTrack :=
  { item_id := "33"
    provider_ids :=
      [ { provider := "qobuz", item_id := "q33", quality := 7 },
        { provider := "spotify", item_id := "s33", quality := 2 } ] }

/-- A track already in the playlist (its `"spotify"` id is `"old1"`). -/
def c8OldTrack : MTrack :=
  { item_id := "11"
    provider_ids := [{ provider := "spotify", item_id := "old1", quality := 2 }] }

end ML

/-! ## Helper lemmas -/

/-- A tag not reported by `syncJobRunning` is not in the job list. -/
theorem not_mem_of_not_syncJobRunning {l : List (String × String)} {p d : String}
    (h : syncJobRunning l p d = false) : (p, d) ∉ l := by
  intro hmem
  have ht : syncJobRunning l p d = true := by
    unfold syncJobRunning
    rw [List.any_eq_true]
    exact ⟨(p, d), hmem, by simp⟩
  rw [ht] at h
  exact absurd h (by simp)

/-- Python `int()` is the identity on an integer-valued rational. -/
theorem pyTrunc_intCast (z : Int) : PM.pyTrunc ((z : Int) : ℚ) = z := by
  unfold PM.pyTrunc
  split <;> simp

/-- The 0..100 clamp lands in 0..100. -/
theorem clampVol_nonneg (z : Int) : 0 ≤ PM.clampVol z := by
  unfold PM.clampVol
  omega

/-- The 0..100 clamp lands in 0..100. -/
theorem clampVol_le_100 (z : Int) : PM.clampVol z ≤ 100 := by
  unfold PM.clampVol
  omega

/-- Clamping twice is clamping once. -/
theorem clampVol_idem (z : Int) : PM.clampVol (PM.clampVol z) = PM.clampVol z := by
  unfold PM.clampVol
  omega

/-! ## Claim C1 — at most one sync job per `(provider_id, job_name)` tag -/

/-- C1: invoking a `sync_task`-wrapped sync function while a job with
the same `(provider_id, job_name)` tag is in `running_sync_jobs` returns
at once, without running the wrapped function, emitting an event or
adding a second entry (the state is returned unchanged); a non-duplicate
invocation appends the tag once, emits `MUSIC_SYNC_STATUS` with the tag
in the payload, runs the job, removes the tag (restoring the original
list) and emits `MUSIC_SYNC_STATUS` again. -/
theorem C1_sync_task_at_most_one {W : Type} (desc : String) (body : String → W → W)
    (prov_id : String) (s : SyncState W) :
    (syncJobRunning s.running_sync_jobs prov_id desc = true →
      sync_task_wrapped desc body prov_id s = s) ∧
    (syncJobRunning s.running_sync_jobs prov_id desc = false →
      sync_task_wrapped desc body prov_id s =
        { running_sync_jobs := s.running_sync_jobs
          events := s.events ++
            [s.running_sync_jobs ++ [(prov_id, desc)], s.running_sync_jobs]
          world := body prov_id s.world }) := by
  constructor
  · intro h
    simp [sync_task_wrapped, h]
  · intro h
    have hnot := not_mem_of_not_syncJobRunning h
    have herase : (s.running_sync_jobs ++ [(prov_id, desc)]).erase (prov_id, desc) =
        s.running_sync_jobs := by
      rw [List.erase_append_right _ hnot]
      simp
    simp [sync_task_wrapped, h, herase]

/-- A concrete state for the C1 witness: an albums job for provider
`"spotify"` is running and no event was emitted yet. -/
def c1State : SyncState Nat :=
  { running_sync_jobs := [("spotify", "albums")], events := [], world := 0 }

/-- The body of the C1 witness job bumps the abstract world. -/
def c1Body : String → Nat → Nat := fun _ n => n + 1

/-- Witness for C1: a duplicate albums job for `"spotify"` is dropped
with the state unchanged, while a tracks job for the same provider runs
and leaves the expected trace. -/
theorem C1_sync_task_at_most_one_witness :
    sync_task_wrapped "albums" c1Body "spotify" c1State = c1State ∧
    sync_task_wrapped "tracks" c1Body "spotify" c1State =
      { running_sync_jobs := [("spotify", "albums")]
        events := [[("spotify", "albums"), ("spotify", "tracks")], [("spotify", "albums")]]
        world := 1 } :=
  ⟨(C1_sync_task_at_most_one "albums" c1Body "spotify" c1State).1 (by decide),
   (C1_sync_task_at_most_one "tracks" c1Body "spotify" c1State).2 (by decide)⟩

/-! ## Claim C4 — `MediaItemMetadata.update` merge rules -/

/-- C4 (failing-input evaluation): merging metadata whose current
`genres` set is `{"rock"}` with new `genres` `{"pop"}` leaves the field
`None` — `set.update` returns `None` and `update` assigns that result —
instead of the union the claim states.  For contrast, the list-typed
`images` field does merge, and a set field whose current value is `None`
does take the new value. -/
theorem C4_metadata_update_set_field_eval :
    ((({ genres := some ["rock"] } : MediaItemMetadata).update
        { genres := some ["pop"] } false).genres = none) ∧
    ((({ images := some [{ type := .thumb, url := "a" }] } : MediaItemMetadata).update
        { images := some [{ type := .thumb, url := "b" }] } false).images =
      some [{ type := .thumb, url := "a" }, { type := .thumb, url := "b" }]) ∧
    ((({} : MediaItemMetadata).update { genres := some ["pop"] } false).genres =
      some ["pop"]) := by
  refine ⟨rfl, ?_, rfl⟩
  decide

/-! ## Claim C9 — quality score shape and monotonicity -/

/-- C9: for a lossless mapping the quality score is the sample rate in
kHz plus the bit depth, monotone in both; for a lossy mapping it is
`bit_rate/100` plus a codec preference of 1 for AAC and OGG, monotone in
the bit rate among mappings of the same content type. -/
theorem C9_quality_score_monotone (m : ProviderMapping) :
    (m.content_type.is_lossless = true →
      m.quality = m.sample_rate / 1000 + m.bit_depth ∧
      ∀ m2 : ProviderMapping, m2.content_type = m.content_type →
        m.sample_rate ≤ m2.sample_rate → m.bit_depth ≤ m2.bit_depth →
        m.quality ≤ m2.quality) ∧
    (m.content_type.is_lossless = false →
      m.quality = m.bit_rate / 100 +
        (if m.content_type = .aac || m.content_type = .ogg then 1 else 0) ∧
      ∀ m2 : ProviderMapping, m2.content_type = m.content_type →
        m.bit_rate ≤ m2.bit_rate → m.quality ≤ m2.quality) := by
  constructor
  · intro h
    refine ⟨by simp [ProviderMapping.quality, h], ?_⟩
    intro m2 hct hsr hbd
    simp only [ProviderMapping.quality, hct, h, if_true]
    exact Nat.add_le_add (Nat.div_le_div_right hsr) hbd
  · intro h
    refine ⟨by simp [ProviderMapping.quality, h], ?_⟩
    intro m2 hct hbr
    simp only [ProviderMapping.quality, hct, h, Bool.false_eq_true, if_false]
    exact Nat.add_le_add (Nat.div_le_div_right hbr) (Nat.le_refl _)

/-- A second OGG mapping with a higher bit rate, for the C9 witness. -/
def oggMappingHi : ProviderMapping :=
  { item_id := "t1", provider_type := .spotify, provider_id := "spotify2",
    content_type := .ogg, bit_rate := 500 }

/-- Witness for C9 at concrete mappings: a 96 kHz / 24 bit FLAC mapping
scores `96 + 24`, and raising an OGG mapping's bit rate does not lower
its score. -/
theorem C9_quality_score_monotone_witness :
    flacMapping.quality = flacMapping.sample_rate / 1000 + flacMapping.bit_depth ∧
    oggMapping.quality ≤ oggMappingHi.quality :=
  ⟨((C9_quality_score_monotone flacMapping).1 (by decide)).1,
   ((C9_quality_score_monotone oggMapping).2 (by decide)).2 oggMappingHi
     (by decide) (by decide)⟩

/-! ## Claim C5 — mapping-set key uniqueness under `add_provider_mapping` -/

/-- After one `add_provider_mapping` there is exactly one mapping with
the new mapping's `(provider_id, item_id)` key. -/
theorem countP_add_provider_mapping (l : List ProviderMapping) (m : ProviderMapping) :
    (add_provider_mapping l m).countP (fun x => mappingKey x = mappingKey m) = 1 := by
  unfold add_provider_mapping
  rw [List.countP_append]
  have hz : ((l.filter fun x =>
      !(x.item_id = m.item_id && x.provider_id = m.provider_id)).countP
        (fun x => mappingKey x = mappingKey m)) = 0 := by
    rw [List.countP_eq_zero]
    intro a hmem hp
    rw [List.mem_filter] at hmem
    obtain ⟨-, hq⟩ := hmem
    rw [decide_eq_true_eq] at hp
    have hii : a.item_id = m.item_id := congrArg Prod.snd hp
    have hpp : a.provider_id = m.provider_id := congrArg Prod.fst hp
    simp [hii, hpp] at hq
  rw [hz]
  simp [List.countP_cons]

/-- `add_provider_mapping` preserves key uniqueness. -/
theorem keyUnique_add_provider_mapping {l : List ProviderMapping} (m : ProviderMapping)
    (h : keyUnique l) : keyUnique (add_provider_mapping l m) := by
  intro k
  by_cases hk : k = mappingKey m
  · subst hk
    rw [countP_add_provider_mapping]
  · unfold add_provider_mapping
    rw [List.countP_append]
    have h1 : (List.countP (fun x => mappingKey x = k) [m]) = 0 := by
      simp [List.countP_cons]
      intro hc
      exact hk hc.symm
    rw [h1]
    have h2 : ((l.filter fun x =>
        !(x.item_id = m.item_id && x.provider_id = m.provider_id)).countP
          (fun x => mappingKey x = k)) ≤ l.countP (fun x => mappingKey x = k) := by
      rw [List.countP_filter]
      exact List.countP_mono_left (fun a _ hpa => by
        rw [Bool.and_eq_true] at hpa
        exact hpa.1)
    have h3 := h k
    omega

/-- Any sequence of `add_provider_mapping` calls preserves key
uniqueness. -/
theorem keyUnique_foldl_add_provider_mapping {l : List ProviderMapping}
    (ms : List ProviderMapping) (h : keyUnique l) :
    keyUnique (ms.foldl add_provider_mapping l) := by
  induction ms generalizing l with
  | nil => exact h
  | cons m ms ih => exact ih (keyUnique_add_provider_mapping m h)

/-- C5 (counterexample): `c5m1` and `c5m2` share the
`(provider_id, item_id)` pair yet are unequal (Python dataclass equality
compares all fields, here `available` differs), and `c5m1` and `c5m3`
share the pair yet hash over different tuples (`__hash__` uses
`provider_type`, not `provider_id`) — so neither equality nor hash is
determined by `(provider_instance_id, item_id)` as the claim states. -/
theorem C5_eq_hash_counterexample :
    (mappingKey c5m1 = mappingKey c5m2 ∧ c5m1 ≠ c5m2) ∧
    (mappingKey c5m1 = mappingKey c5m3 ∧ c5m1.hashKey ≠ c5m3.hashKey) := by
  decide

/-- C5 (amended): `ProviderMapping` equality is structural over all
fields and its hash is computed from `(provider_type, item_id)`;
`add_provider_mapping` nevertheless replaces by an explicit
`(provider_id, item_id)` comparison, so on any mapping set with at most
one mapping per `(provider_id, item_id)` key (for instance the empty
default) an add leaves exactly one mapping under the new mapping's key —
the new mapping itself, which is appended — and any sequence of adds
keeps at most one mapping per key. -/
theorem C5_add_provider_mapping_key_unique (l : List ProviderMapping)
    (m : ProviderMapping) (ms : List ProviderMapping) (h : keyUnique l) :
    ((add_provider_mapping l m).countP (fun x => mappingKey x = mappingKey m) = 1 ∧
      m ∈ add_provider_mapping l m) ∧
    keyUnique (add_provider_mapping l m) ∧
    keyUnique (ms.foldl add_provider_mapping l) :=
  ⟨⟨countP_add_provider_mapping l m, by simp [add_provider_mapping]⟩,
   keyUnique_add_provider_mapping m h,
   keyUnique_foldl_add_provider_mapping ms h⟩

/-- Witness for C5 (amended) at concrete mappings: adding `c5m1` to the
singleton set `{c5m2}` (which shares its key) leaves exactly one mapping
under that key. -/
theorem C5_add_provider_mapping_key_unique_witness :
    (add_provider_mapping [c5m2] c5m1).countP
      (fun x => mappingKey x = mappingKey c5m1) = 1 :=
  ((C5_add_provider_mapping_key_unique [c5m2] c5m1 [] (by
    intro k
    simp only [List.countP_cons, List.countP_nil]
    split <;> omega)).1).1

/-! ## Claim C3 — group volume scaling -/

/-- C3 (failing-input evaluation): on a group whose only active child is
at volume 0, setting the group volume to 50 sends the child a volume
command carrying 0 — the code computes
`new_child = cur_child + cur_child * (1 + 50/100)` and `cur_child = 0`
annihilates the restart-from-silence factor — where the claim (and the
spec's restart-from-silence intent) requires the child to end at 50.
Moreover, setting a group already at volume 50 to the same value 50
still sends the child a volume command (with its unchanged volume),
where the claim says no child receives a command. -/
theorem C3_group_volume_scaling_eval :
    PM.cmd_volume_set PM.c3AllZeroState 2 "g" 50 = [.provVolumeSet "c1" 0] ∧
    PM.cmd_volume_set PM.c3EqualState 2 "g" 50 = [.provVolumeSet "c1" 50] := by
  constructor <;>
    norm_num +decide [PM.cmd_volume_set, PM.c3AllZeroState, PM.c3EqualState,
      PM.pyTrunc, PM.clampVol]

/-! ## Claim C10 — volume-set power gate and clamping -/

/-- C10: `async_cmd_volume_set` on a player whose `powered` flag is
false returns without dispatching any command (to the player's provider,
a volume control, or any child; the function writes no player state, so
everything is unchanged); on a powered player the requested level is
first truncated and clamped into `0..100`, and the call behaves exactly
as if it had been made with the clamped value. -/
theorem C10_volume_set_power_gate_clamp (st : PM.PMState) (fuel : Nat)
    (player_id : String) (volume_level : ℚ) (player : PM.Player)
    (hp : st.players player_id = some player) :
    (player.powered = false → PM.cmd_volume_set st fuel player_id volume_level = []) ∧
    (0 ≤ PM.clampVol (PM.pyTrunc volume_level) ∧
      PM.clampVol (PM.pyTrunc volume_level) ≤ 100 ∧
      PM.cmd_volume_set st fuel player_id volume_level =
        PM.cmd_volume_set st fuel player_id
          ((PM.clampVol (PM.pyTrunc volume_level) : Int) : ℚ)) := by
  constructor
  · intro hpow
    cases fuel with
    | zero => rfl
    | succ n => simp [PM.cmd_volume_set, hp, hpow]
  · refine ⟨clampVol_nonneg _, clampVol_le_100 _, ?_⟩
    cases fuel with
    | zero => rfl
    | succ n =>
      have hcl : PM.clampVol (PM.pyTrunc ((PM.clampVol (PM.pyTrunc volume_level) : Int) : ℚ)) =
          PM.clampVol (PM.pyTrunc volume_level) := by
        rw [pyTrunc_intCast, clampVol_idem]
      simp only [PM.cmd_volume_set, hcl]

/-- Witness for C10: the unpowered player `"off1"` gets no command at
volume 50, and for the powered player `"on1"` a request of 150 behaves
as the clamped request 100. -/
theorem C10_volume_set_power_gate_clamp_witness :
    PM.cmd_volume_set PM.c10State 1 "off1" 50 = [] ∧
    (0 ≤ PM.clampVol (PM.pyTrunc 150) ∧ PM.clampVol (PM.pyTrunc 150) ≤ 100 ∧
      PM.cmd_volume_set PM.c10State 1 "on1" 150 =
        PM.cmd_volume_set PM.c10State 1 "on1" ((PM.clampVol (PM.pyTrunc 150) : Int) : ℚ)) :=
  ⟨(C10_volume_set_power_gate_clamp PM.c10State 1 "off1" 50
      { player_id := "off1", powered := false, volume_level := 20 } rfl).1 rfl,
   (C10_volume_set_power_gate_clamp PM.c10State 1 "on1" 150
      { player_id := "on1", powered := true, volume_level := 20 } rfl).2⟩

/-! ## Claim C2 — removing a provider mapping keeps or deletes the row -/

/-- Two nested boolean filters collapse: surviving the
`(media_type, item_id)` filter already implies surviving the
`(media_type, item_id, provider_instance)` one. -/
theorem not_and3_and_not_and : ∀ a b c : Bool, (!(a && b) && !(a && b && c)) = !(a && b) := by
  decide

/-- C2: `remove_prov_mapping(item_id, provider_instance_id)` on an
existing row removes exactly that instance's mappings from the row's
mapping set and exactly that instance's `(media_type, item_id)` rows
from the index table; when a mapping remains the row is kept with the
filtered set and `MEDIA_ITEM_UPDATED` is emitted, and when none remains
the row and all its index rows are deleted and `MEDIA_ITEM_DELETED` is
emitted — so rows with a non-empty mapping set keep that invariant. -/
theorem C2_remove_prov_mapping_spec (mt : String) (st : Ctrl.CtrlState)
    (id : Nat) (inst : String) (row : Ctrl.DbRow)
    (hrow : Ctrl.findRow st.rows id = some row) :
    ((row.provider_mappings.filter fun x => !(x.provider_instance = inst)) ≠ [] →
      Ctrl.remove_prov_mapping mt st id inst =
        { rows := st.rows.map fun r =>
            if r.item_id = id then
              { r with provider_mappings :=
                  row.provider_mappings.filter fun x => !(x.provider_instance = inst) }
            else r
          mappingTable := st.mappingTable.filter fun r =>
            !(r.media_type = mt && r.item_id = id && r.provider_instance = inst)
          events := st.events ++ [.media_item_updated row.uri] }) ∧
    ((row.provider_mappings.filter fun x => !(x.provider_instance = inst)) = [] →
      Ctrl.remove_prov_mapping mt st id inst =
        { rows := st.rows.filter fun r => !(r.item_id = id)
          mappingTable := st.mappingTable.filter fun r =>
            !(r.media_type = mt && r.item_id = id)
          events := st.events ++ [.media_item_deleted row.uri] }) ∧
    ((∀ r ∈ st.rows, r.provider_mappings ≠ []) →
      ∀ r ∈ (Ctrl.remove_prov_mapping mt st id inst).rows, r.provider_mappings ≠ []) := by
  have heq1 : (row.provider_mappings.filter fun x => !(x.provider_instance = inst)) ≠ [] →
      Ctrl.remove_prov_mapping mt st id inst =
        { rows := st.rows.map fun r =>
            if r.item_id = id then
              { r with provider_mappings :=
                  row.provider_mappings.filter fun x => !(x.provider_instance = inst) }
            else r
          mappingTable := st.mappingTable.filter fun r =>
            !(r.media_type = mt && r.item_id = id && r.provider_instance = inst)
          events := st.events ++ [.media_item_updated row.uri] } := by
    intro hne
    have hfe : (row.provider_mappings.filter fun x =>
        !(x.provider_instance = inst)).isEmpty = false := by
      rwa [List.isEmpty_eq_false]
    simp only [Ctrl.remove_prov_mapping, hrow, hfe]
    rfl
  have heq2 : (row.provider_mappings.filter fun x => !(x.provider_instance = inst)) = [] →
      Ctrl.remove_prov_mapping mt st id inst =
        { rows := st.rows.filter fun r => !(r.item_id = id)
          mappingTable := st.mappingTable.filter fun r =>
            !(r.media_type = mt && r.item_id = id)
          events := st.events ++ [.media_item_deleted row.uri] } := by
    intro hnil
    simp only [Ctrl.remove_prov_mapping, hrow, hnil, List.isEmpty_nil, if_true,
      Ctrl.delete, List.filter_filter]
    congr 1
    exact List.filter_congr fun r _ => not_and3_and_not_and _ _ _
  refine ⟨heq1, heq2, ?_⟩
  intro hinv r hr
  by_cases hrem : (row.provider_mappings.filter fun x => !(x.provider_instance = inst)) = []
  · rw [heq2 hrem] at hr
    rw [List.mem_filter] at hr
    exact hinv r hr.1
  · rw [heq1 hrem] at hr
    rw [List.mem_map] at hr
    obtain ⟨r0, hr0, rfl⟩ := hr
    by_cases hid : r0.item_id = id
    · simpa [hid] using hrem
    · simpa [hid] using hinv r0 hr0

/-- Witness for C2 at the concrete two-row state: dropping instance
`"spotify"` from row 2 (its only mapping) deletes the row and its index
rows with a `MEDIA_ITEM_DELETED` event, while dropping `"qobuz"` from
row 1 keeps the row with the remaining `"spotify"` mapping and a
`MEDIA_ITEM_UPDATED` event. -/
theorem C2_remove_prov_mapping_spec_witness :
    Ctrl.remove_prov_mapping "track" Ctrl.c2State 2 "spotify" =
      { rows := Ctrl.c2State.rows.filter fun r => !(r.item_id = 2)
        mappingTable := Ctrl.c2State.mappingTable.filter fun r =>
          !(r.media_type = "track" && r.item_id = 2)
        events := [.media_item_deleted "track://database/2"] } ∧
    Ctrl.remove_prov_mapping "track" Ctrl.c2State 1 "qobuz" =
      { rows := Ctrl.c2State.rows.map fun r =>
          if r.item_id = 1 then
            { r with provider_mappings :=
                [{ provider_instance := "spotify", provider_domain := "spotify",
                   item_id := "s1" }] }
          else r
        mappingTable := Ctrl.c2State.mappingTable.filter fun r =>
          !(r.media_type = "track" && r.item_id = 1 && r.provider_instance = "qobuz")
        events := [.media_item_updated "track://database/1"] } :=
  ⟨(C2_remove_prov_mapping_spec "track" Ctrl.c2State 2 "spotify"
      { item_id := 2, uri := "track://database/2",
        provider_mappings :=
          [{ provider_instance := "spotify", provider_domain := "spotify",
             item_id := "s2" }] }
      (by decide)).2.1 (by decide),
   (C2_remove_prov_mapping_spec "track" Ctrl.c2State 1 "qobuz"
      { item_id := 1, uri := "track://database/1",
        provider_mappings :=
          [{ provider_instance := "spotify", provider_domain := "spotify",
             item_id := "s1" },
           { provider_instance := "qobuz", provider_domain := "qobuz",
             item_id := "q1" }] }
      (by decide)).1 (by decide)⟩

/-! ## Claim C6 — `get` resolution order -/

/-- C6 (counterexample): with `provider = "database"` and the default
`add_to_db = true`, a stale database row (last refresh longer than
`REFRESH_INTERVAL` ago) is not returned; `get` contacts the provider
through the row's first provider mapping and returns the provider
entity, refuting the claim's unconditional "if provider is `database`
the database row is returned". -/
theorem C6_get_database_stale_counterexample :
    Ctrl.c6Env.dbItem "1" = some Ctrl.c6DbRow ∧
    Ctrl.get Ctrl.c6Env "1" "database" false true none true =
      .ok ⟨Ctrl.c6ProvItem, true, true, false⟩ ∧
    Ctrl.get Ctrl.c6Env "1" "database" false true none true ≠
      .ok ⟨Ctrl.c6DbRow, false, false, false⟩ := by
  refine ⟨rfl, rfl, ?_⟩
  intro h
  rw [show Ctrl.get Ctrl.c6Env "1" "database" false true none true =
    .ok ⟨Ctrl.c6ProvItem, true, true, false⟩ from rfl] at h
  exact absurd (Except.ok.inj h) (by decide)

/-- C6 (amended): a looked-up database row is returned untouched
exactly when `add_to_db` is false or the row is fresh and
`force_refresh` unset (this covers `provider = "database"`); a stale or
force-refreshed row with `add_to_db` true is redirected through the
row's first provider mapping and re-fetched; on a database miss the item
is fetched from the provider unless valid `details` are supplied, and
`lazy = true` returns the provider entity with `add` scheduled in the
background while `lazy = false` awaits `add` and returns the database
entity. -/
theorem C6_get_resolution_amended (env : Ctrl.GetEnv) (item_id prov : String)
    (force_refresh lazy : Bool) (details0 : Option Ctrl.CItem) (add_to_db : Bool) :
    (∀ it : Ctrl.CItem,
      (if prov = "database" then env.dbItem item_id
       else env.dbItemByProv prov item_id) = some it →
      (add_to_db = false ∨ (force_refresh = false ∧
        env.now - it.metadata_last_refresh.getD 0 ≤ Ctrl.REFRESH_INTERVAL)) →
      Ctrl.get env item_id prov force_refresh lazy details0 add_to_db =
        .ok ⟨it, false, false, false⟩) ∧
    (∀ d : Ctrl.CItem, prov ≠ "database" →
      env.dbItemByProv prov item_id = none →
      Ctrl.validateDetails details0 = none →
      env.providerItem prov item_id = some d →
      add_to_db = true →
      (lazy = true →
        Ctrl.get env item_id prov force_refresh lazy details0 add_to_db =
          .ok ⟨d, true, true, false⟩) ∧
      (lazy = false →
        Ctrl.get env item_id prov force_refresh lazy details0 add_to_db =
          .ok ⟨env.addResult d, true, true, true⟩)) ∧
    (∀ (it d : Ctrl.CItem) (p2 i2 : String),
      (if prov = "database" then env.dbItem item_id
       else env.dbItemByProv prov item_id) = some it →
      add_to_db = true →
      (force_refresh = true ∨
        env.now - it.metadata_last_refresh.getD 0 > Ctrl.REFRESH_INTERVAL) →
      env.providerMapping it = some (p2, i2) →
      Ctrl.validateDetails details0 = none →
      env.providerItem p2 i2 = some d →
      lazy = true →
      Ctrl.get env item_id prov force_refresh lazy details0 add_to_db =
        .ok ⟨d, true, true, false⟩) ∧
    (∀ d : Ctrl.CItem, prov ≠ "database" →
      env.dbItemByProv prov item_id = none →
      Ctrl.validateDetails details0 = some d →
      add_to_db = true → lazy = true →
      Ctrl.get env item_id prov force_refresh lazy details0 add_to_db =
        .ok ⟨d, false, true, false⟩) := by
  refine ⟨?_, ?_, ?_, ?_⟩
  · intro it hlk hret
    by_cases hdb : prov = "database"
    · rw [if_pos hdb] at hlk
      subst hdb
      rcases hret with hadd | ⟨hfr, hfresh⟩
      · subst hadd
        simp [Ctrl.get, hlk]
      · subst hfr
        have hnlt : ¬(env.now - it.metadata_last_refresh.getD 0 > Ctrl.REFRESH_INTERVAL) :=
          not_lt.mpr hfresh
        cases add_to_db with
        | false => simp [Ctrl.get, hlk]
        | true => simp [Ctrl.get, hlk, hnlt]
    · rw [if_neg hdb] at hlk
      rcases hret with hadd | ⟨hfr, hfresh⟩
      · subst hadd
        simp [Ctrl.get, hlk, hdb]
      · subst hfr
        have hnlt : ¬(env.now - it.metadata_last_refresh.getD 0 > Ctrl.REFRESH_INTERVAL) :=
          not_lt.mpr hfresh
        cases add_to_db with
        | false => simp [Ctrl.get, hlk, hdb]
        | true => simp [Ctrl.get, hlk, hdb, hnlt]
  · intro d hdb hmiss hdet hfetch hadd
    subst hadd
    constructor
    · intro hlazy
      subst hlazy
      simp [Ctrl.get, Ctrl.getFetchTail, hdb, hmiss, hdet, hfetch]
    · intro hlazy
      subst hlazy
      simp [Ctrl.get, Ctrl.getFetchTail, hdb, hmiss, hdet, hfetch]
  · intro it d p2 i2 hlk hadd hstale hmap hdet hfetch hlazy
    subst hadd
    subst hlazy
    have hfr : (force_refresh ||
        decide (env.now - it.metadata_last_refresh.getD 0 > Ctrl.REFRESH_INTERVAL)) = true := by
      rcases hstale with h | h
      · simp [h]
      · simp [h]
    by_cases hdb : prov = "database"
    · rw [if_pos hdb] at hlk
      subst hdb
      simp [Ctrl.get, Ctrl.getFetchTail, hlk, hfr, hmap, hdet, hfetch]
    · rw [if_neg hdb] at hlk
      simp [Ctrl.get, Ctrl.getFetchTail, hdb, hlk, hfr, hmap, hdet, hfetch]
  · intro d hdb hmiss hdet hadd hlazy
    subst hadd
    subst hlazy
    simp [Ctrl.get, Ctrl.getFetchTail, hdb, hmiss, hdet]

/-- Witness for C6 (amended): the fresh database row `"2"` is returned
untouched for `provider = "database"`, and a miss on provider
`"deezer"` fetches the provider item, schedules `add` and returns it
(`lazy = true`). -/
theorem C6_get_resolution_amended_witness :
    Ctrl.get Ctrl.c6WitnessEnv "2" "database" false true none true =
      .ok ⟨Ctrl.c6FreshRow, false, false, false⟩ ∧
    Ctrl.get Ctrl.c6WitnessEnv "z" "deezer" false true none true =
      .ok ⟨Ctrl.c6ProvItem, true, true, false⟩ :=
  ⟨(C6_get_resolution_amended Ctrl.c6WitnessEnv "2" "database" false true none true).1
      Ctrl.c6FreshRow (by decide) (Or.inr ⟨rfl, by decide⟩),
   ((C6_get_resolution_amended Ctrl.c6WitnessEnv "z" "deezer" false true none true).2.1
      Ctrl.c6ProvItem (by decide) rfl rfl (by decide) rfl).1 rfl⟩

/-! ## Claim C7 — `async_play_media` expansion and queue-option dispatch -/

/-- C7: after expanding artists to top tracks, albums to album tracks,
playlists to playlist tracks and passing single tracks through (the
built queue items carry exactly the expanded tracks in order), the queue
is loaded (replaced) when the option is REPLACE or when more than 10
items were collected under PLAY or NEXT; otherwise NEXT inserts at
offset 1, PLAY inserts at offset 0, and ADD appends. -/
theorem C7_play_media_dispatch (env : PM.PlayEnv) (player_id : String)
    (media_items : List PM.MItem) (queue_opt : PM.QueueOption)
    (hp : env.playerExists player_id = true) :
    ((PM.buildQueueItems env player_id media_items).map (fun q => q.track) =
      media_items.flatMap (PM.expandOne env)) ∧
    (queue_opt = .replace ∨
        ((PM.buildQueueItems env player_id media_items).length > 10 ∧
          (queue_opt = .play ∨ queue_opt = .next)) →
      PM.play_media env player_id media_items queue_opt =
        .load (PM.buildQueueItems env player_id media_items)) ∧
    ((PM.buildQueueItems env player_id media_items).length ≤ 10 →
      PM.play_media env player_id media_items .next =
        .insert (PM.buildQueueItems env player_id media_items) 1) ∧
    ((PM.buildQueueItems env player_id media_items).length ≤ 10 →
      PM.play_media env player_id media_items .play =
        .insert (PM.buildQueueItems env player_id media_items) 0) ∧
    (PM.play_media env player_id media_items .add =
      .append (PM.buildQueueItems env player_id media_items)) := by
  have hlen : (PM.buildQueueItems env player_id media_items).length =
      (media_items.flatMap (PM.expandOne env)).length := by
    simp [PM.buildQueueItems]
  refine ⟨?_, ?_, ?_, ?_, ?_⟩
  · simp only [PM.buildQueueItems, List.map_map]
    have hcomp : ((fun q : PM.QItem => q.track) ∘ fun p : Nat × PM.MItem =>
        { track := p.2, uri := PM.streamUri env player_id p.1 }) = Prod.snd := by
      funext p
      rfl
    rw [hcomp]
    exact List.map_snd_zip _ _ (by simp)
  · intro h
    rcases h with h | ⟨hgt, hpq⟩
    · subst h
      simp [PM.play_media, hp]
    · rcases hpq with h | h <;> subst h <;>
        simp [PM.play_media, hp, hgt]
  · intro hle
    have hngt : ¬(PM.buildQueueItems env player_id media_items).length > 10 := not_lt.mpr hle
    simp [PM.play_media, hp, hngt]
  · intro hle
    have hngt : ¬(PM.buildQueueItems env player_id media_items).length > 10 := not_lt.mpr hle
    simp [PM.play_media, hp, hngt]
  · simp [PM.play_media, hp]

/-- Witness for C7: playing the two-item list (album + artist, three
expanded tracks, so at most 10) with NEXT inserts at offset 1, and with
ADD appends. -/
theorem C7_play_media_dispatch_witness :
    PM.play_media PM.c7Env "p1" PM.c7Items .next =
      .insert (PM.buildQueueItems PM.c7Env "p1" PM.c7Items) 1 ∧
    PM.play_media PM.c7Env "p1" PM.c7Items .add =
      .append (PM.buildQueueItems PM.c7Env "p1" PM.c7Items) :=
  ⟨(C7_play_media_dispatch PM.c7Env "p1" PM.c7Items .next rfl).2.2.1 (by decide),
   (C7_play_media_dispatch PM.c7Env "p1" PM.c7Items .add rfl).2.2.2.2⟩

/-! ## Claim C8 — playlist edits: editability guard, checksum, single
provider -/

/-- C8: a missing-or-present playlist with `is_editable = false` makes
both edit functions return `False` with no provider call and no checksum
write; on an editable playlist with tracks actually to add (resp.
remove), the checksum is set to the current wall clock and the edit is
forwarded to the playlist's first — single — provider mapping. -/
theorem C8_playlist_edit_guard (env : ML.EditEnv) (tracks : List ML.MTrack)
    (pl : ML.MPlaylist) (hpl : env.playlist = some pl) :
    (pl.is_editable = false →
      ML.add_playlist_tracks env tracks = ⟨some false, none, none⟩ ∧
      ML.remove_playlist_tracks env tracks = ⟨some false, none, none⟩) ∧
    (∀ (pp : ML.ProvId) (rest : List ML.ProvId),
      pl.is_editable = true → pl.provider_ids = pp :: rest →
      (ML.trackIdsToAdd pp.provider
          (ML.currentPlaylistTrackIds (env.providerPlaylistTracks pp.provider pp.item_id))
          tracks ≠ [] →
        ML.add_playlist_tracks env tracks =
          ⟨some (env.addOnProvider pp.provider pp.item_id
              (ML.trackIdsToAdd pp.provider
                (ML.currentPlaylistTrackIds
                  (env.providerPlaylistTracks pp.provider pp.item_id)) tracks)),
            some (toString env.now),
            some (pp.provider, pp.item_id,
              ML.trackIdsToAdd pp.provider
                (ML.currentPlaylistTrackIds
                  (env.providerPlaylistTracks pp.provider pp.item_id)) tracks)⟩) ∧
      (ML.trackIdsToRemove pp.provider tracks ≠ [] →
        ML.remove_playlist_tracks env tracks =
          ⟨some (env.removeOnProvider pp.provider pp.item_id
              (ML.trackIdsToRemove pp.provider tracks)),
            some (toString env.now),
            some (pp.provider, pp.item_id, ML.trackIdsToRemove pp.provider tracks)⟩)) := by
  constructor
  · intro hed
    constructor
    · simp [ML.add_playlist_tracks, hpl, hed]
    · simp [ML.remove_playlist_tracks, hpl, hed]
  · intro pp rest hed hpids
    constructor
    · intro hne
      have hie : (ML.trackIdsToAdd pp.provider
          (ML.currentPlaylistTrackIds (env.providerPlaylistTracks pp.provider pp.item_id))
          tracks).isEmpty = false := by
        rwa [List.isEmpty_eq_false]
      simp [ML.add_playlist_tracks, hpl, hed, hpids, hie]
    · intro hne
      have hie : (ML.trackIdsToRemove pp.provider tracks).isEmpty = false := by
        rwa [List.isEmpty_eq_false]
      simp [ML.remove_playlist_tracks, hpl, hed, hpids, hie]

/-- Witness for C8: on the read-only playlist the add is rejected with
no effects; on the editable playlist adding the new track bumps the
checksum to the clock value `"1000"` and forwards `["s33"]` (the
track's version on the playlist's provider) to `("spotify", "pl7")`,
and removing the already-present track forwards `["old1"]`. -/
theorem C8_playlist_edit_guard_witness :
    ML.add_playlist_tracks ML.c8ReadOnlyEnv [ML.c8NewTrack] = ⟨some false, none, none⟩ ∧
    ML.add_playlist_tracks ML.c8Env [ML.c8NewTrack] =
      ⟨some true, some "1000", some ("spotify", "pl7", ["s33"])⟩ ∧
    ML.remove_playlist_tracks ML.c8Env [ML.c8OldTrack] =
      ⟨some true, some "1000", some ("spotify", "pl7", ["old1"])⟩ := by
  have hadd : ML.trackIdsToAdd "spotify"
      (ML.currentPlaylistTrackIds (ML.c8Env.providerPlaylistTracks "spotify" "pl7"))
      [ML.c8NewTrack] = ["s33"] := by
    simp [ML.trackIdsToAdd, ML.currentPlaylistTrackIds, ML.sortByQualityDesc,
      ML.pickTrackId, ML.c8Env, ML.c8NewTrack, List.mergeSort]
  have hrem : ML.trackIdsToRemove "spotify" [ML.c8OldTrack] = ["old1"] := by
    simp [ML.trackIdsToRemove, ML.c8OldTrack]
  refine ⟨((C8_playlist_edit_guard ML.c8ReadOnlyEnv [ML.c8NewTrack]
      ML.c8ReadOnlyPlaylist rfl).1 rfl).1, ?_, ?_⟩
  · have h := ((C8_playlist_edit_guard ML.c8Env [ML.c8NewTrack]
        { item_id := "7", is_editable := true, checksum := some "c0",
          provider_ids := [{ provider := "spotify", item_id := "pl7", quality := 99 }] }
        rfl).2
      { provider := "spotify", item_id := "pl7", quality := 99 } [] rfl rfl).1
      (by rw [show ({ provider := "spotify", item_id := "pl7", quality := 99 }
          : ML.ProvId).provider = "spotify" from rfl]
          rw [show ({ provider := "spotify", item_id := "pl7", quality := 99 }
            : ML.ProvId).item_id = "pl7" from rfl]
          rw [hadd]
          simp)
    rw [h]
    simp [hadd]
    exact ⟨rfl, rfl⟩
  · have h := ((C8_playlist_edit_guard ML.c8Env [ML.c8OldTrack]
        { item_id := "7", is_editable := true, checksum := some "c0",
          provider_ids := [{ provider := "spotify", item_id := "pl7", quality := 99 }] }
        rfl).2
      { provider := "spotify", item_id := "pl7", quality := 99 } [] rfl rfl).2
      (by rw [show ({ provider := "spotify", item_id := "pl7", quality := 99 }
          : ML.ProvId).provider = "spotify" from rfl]
          rw [hrem]
          simp)
    rw [h]
    simp [hrem]
    exact ⟨rfl, rfl⟩

end MA
